import Mathlib

/-! Postgres helper routines of `pkg/pg/simple.go`

A shallow embedding of `SimplePostgresDeployment`, `SimplePostgresService` and
`DeleteSimplePostgres`.  The Kubernetes client (`k.Kclient`) is an explicit
record of response functions over an abstract client state; every routine
threads that state, records the API calls it issues (the call trace) and the
lines it hands to `logrus`.

Pointers returned by the client (`*v1beta1.Deployment`, `*v1.Service`,
`*v1beta1.ReplicaSet`) are `Option`s: `none` is the nil pointer, and reading or
writing a field through it ends the run with `Outcome.nilDeref`.
-/

set_option linter.dupNamespace false

namespace pg

/-! ## Errors -/

/-- Go `error` values handed back by the client: the API's not-found status, or
anything else (with its message). -/
inductive Err where
  | notFound (msg : String)
  | other (msg : String)
deriving DecidableEq, Repr

/-- The `Error()` method of an `error`. -/
def Err.Error : Err → String
  | .notFound m => m
  | .other m => m

/-- The `errors.IsNotFound` test of the API machinery. -/
def Err.IsNotFound : Err → Bool
  | .notFound _ => true
  | .other _ => false

/-! ## Object model (the fields `simple.go` names; every other field keeps its zero value) -/

namespace v1

/-- Go `v1.ObjectMeta`; a `map[string]string` is an association list. -/
structure ObjectMeta where
  Name : String := ""
  Labels : List (String × String) := []
deriving DecidableEq, Repr

structure EnvVar where
  Name : String := ""
  Value : String := ""
deriving DecidableEq, Repr

structure ContainerPort where
  Name : String := ""
  ContainerPort : Int := 0
  Protocol : String := ""
deriving DecidableEq, Repr

structure VolumeMount where
  Name : String := ""
  MountPath : String := ""
deriving DecidableEq, Repr

structure Container where
  Name : String := ""
  Image : String := ""
  ImagePullPolicy : String := ""
  Env : List EnvVar := []
  Ports : List ContainerPort := []
  VolumeMounts : List VolumeMount := []
deriving DecidableEq, Repr

structure EmptyDirVolumeSource where
deriving DecidableEq, Repr

/-- Go `v1.VolumeSource`: `EmptyDir` is a pointer, `none` when unset. -/
structure VolumeSource where
  EmptyDir : Option EmptyDirVolumeSource := none
deriving DecidableEq, Repr

/-- Go `v1.Volume` (the `VolumeSource` is embedded in Go). -/
structure Volume where
  Name : String := ""
  VolumeSource : VolumeSource := {}
deriving DecidableEq, Repr

structure PodSpec where
  Containers : List Container := []
  Volumes : List Volume := []
deriving DecidableEq, Repr

structure PodTemplateSpec where
  ObjectMeta : ObjectMeta := {}
  Spec : PodSpec := {}
deriving DecidableEq, Repr

/-- Modelled from the spec: the constant `v1.ProtocolTCP` of the client library
(spec: "container port 5432/TCP"); the library is not part of the sources. -/
def ProtocolTCP : String := "TCP"

/-- Modelled from the spec: the constant `v1.ServiceTypeClusterIP` of the client
library (spec: "cluster-internal service addressing"). -/
def ServiceTypeClusterIP : String := "ClusterIP"

structure ServicePort where
  Name : String := ""
  Port : Int := 0
  TargetPort : Int ⊕ String := .inl 0
  Protocol : String := ""
deriving DecidableEq, Repr

/-- Go `v1.ServiceSpec`; the Go field `Type` is written `Type_`. -/
structure ServiceSpec where
  Selector : List (String × String) := []
  Ports : List ServicePort := []
  Type_ : String := ""
deriving DecidableEq, Repr

structure Service where
  ObjectMeta : ObjectMeta := {}
  Spec : ServiceSpec := {}
deriving DecidableEq, Repr

/-- Go `v1.DeleteOptions`; only the empty value `&v1.DeleteOptions{}` is used. -/
structure DeleteOptions where
deriving DecidableEq, Repr

end v1

namespace intstr

/-- Go `intstr.FromInt`: the integer alternative of an `IntOrString`. -/
def FromInt (val : Int) : Int ⊕ String := .inl val

end intstr

namespace v1beta1

/-- Go `v1beta1.DeploymentSpec`; `Replicas` is a `*int32`. -/
structure DeploymentSpec where
  Replicas : Option Int := none
  Template : v1.PodTemplateSpec := {}
deriving DecidableEq, Repr

structure Deployment where
  ObjectMeta : v1.ObjectMeta := {}
  Spec : DeploymentSpec := {}
deriving DecidableEq, Repr

structure ReplicaSet where
  ObjectMeta : v1.ObjectMeta := {}
deriving DecidableEq, Repr

end v1beta1

/-- Go promotes the fields of the embedded `ObjectMeta`: `deployment.Name`. -/
abbrev v1beta1.Deployment.Name (d : v1beta1.Deployment) : String := d.ObjectMeta.Name

/-- Go promotes the fields of the embedded `ObjectMeta`: `svc.Name`. -/
abbrev v1.Service.Name (s : v1.Service) : String := s.ObjectMeta.Name

/-- Go promotes the fields of the embedded `ObjectMeta`: `replicaSet.Name`. -/
abbrev v1beta1.ReplicaSet.Name (r : v1beta1.ReplicaSet) : String := r.ObjectMeta.Name

/-! ## The API client, call traces and logs -/

/-- One call on `k.Kclient`, with the namespace it was scoped to and its argument. -/
inductive Call where
  | servicesGet (ns name : String)
  | servicesCreate (ns : String) (svc : v1.Service)
  | servicesDelete (ns name : String) (opts : v1.DeleteOptions)
  | deploymentsGet (ns name : String)
  | deploymentsCreate (ns : String) (d : v1beta1.Deployment)
  | deploymentsUpdate (ns : String) (d : v1beta1.Deployment)
  | deploymentsDelete (ns name : String) (opts : v1.DeleteOptions)
  | replicaSetsGet (ns name : String)
  | replicaSetsDelete (ns name : String) (opts : v1.DeleteOptions)
deriving DecidableEq, Repr

inductive Resource where
  | services | deployments | replicaSets
deriving DecidableEq, Repr

inductive Verb where
  | get | create | update | delete
deriving DecidableEq, Repr

/-- Which resource kind and which verb a call is. -/
def Call.kind : Call → Resource × Verb
  | .servicesGet _ _ => (.services, .get)
  | .servicesCreate _ _ => (.services, .create)
  | .servicesDelete _ _ _ => (.services, .delete)
  | .deploymentsGet _ _ => (.deployments, .get)
  | .deploymentsCreate _ _ => (.deployments, .create)
  | .deploymentsUpdate _ _ => (.deployments, .update)
  | .deploymentsDelete _ _ _ => (.deployments, .delete)
  | .replicaSetsGet _ _ => (.replicaSets, .get)
  | .replicaSetsDelete _ _ _ => (.replicaSets, .delete)

/-- A call that changes the cluster (anything but a Get). -/
def Call.isMutating (c : Call) : Bool := c.kind.2 != Verb.get

def Call.isServicesDelete : Call → Bool
  | .servicesDelete _ _ _ => true
  | _ => false

def Call.isDeploymentsUpdate : Call → Bool
  | .deploymentsUpdate _ _ => true
  | _ => false

def Call.isDeploymentsDelete : Call → Bool
  | .deploymentsDelete _ _ _ => true
  | _ => false

/-- A line handed to `logrus`, already formatted. -/
inductive Log where
  | info (msg : String)
  | error (msg : String)
deriving DecidableEq, Repr

/-- The client `k.Kclient` over a client state `σ`: each method maps the state
before the call and the arguments to the response and the state after it. -/
structure Kclient (σ : Type) where
  deploymentsGet : σ → String → String → (Option v1beta1.Deployment × Option Err) × σ
  deploymentsCreate : σ → String → v1beta1.Deployment → (Option v1beta1.Deployment × Option Err) × σ
  deploymentsUpdate : σ → String → v1beta1.Deployment → (Option v1beta1.Deployment × Option Err) × σ
  deploymentsDelete : σ → String → String → v1.DeleteOptions → Option Err × σ
  servicesGet : σ → String → String → (Option v1.Service × Option Err) × σ
  servicesCreate : σ → String → v1.Service → (Option v1.Service × Option Err) × σ
  servicesDelete : σ → String → String → v1.DeleteOptions → Option Err × σ
  replicaSetsGet : σ → String → String → (Option v1beta1.ReplicaSet × Option Err) × σ
  replicaSetsDelete : σ → String → String → v1.DeleteOptions → Option Err × σ

/-- How a routine ended: it returned a value, or it dereferenced a nil pointer
(a Go run-time panic). -/
inductive Outcome (α : Type) where
  | returned (a : α)
  | nilDeref
deriving DecidableEq, Repr

/-- What one run of a routine did: the calls issued in order, the log lines in
order, the client state it left, and how it ended. -/
structure Run (σ α : Type) where
  trace : List Call
  logs : List Log
  state : σ
  result : Outcome α

/-! ## The routines -/

/-- The `deployment` literal of `SimplePostgresDeployment` (simple.go, lines
46-111); `Replicas` points at the local variable `replicas`. -/
def SimplePostgresDeployment.deployment (replicas : Int) : v1beta1.Deployment :=
  { ObjectMeta := { Name := "postgres", Labels := [("app", "postgres")] }
    Spec :=
      { Replicas := some replicas
        Template :=
          { ObjectMeta := { Labels := [("app", "postgres")] }
            Spec :=
              { Containers :=
                  [ { Name := "postgres"
                      Image := "postgres:9.4"
                      ImagePullPolicy := "Always"
                      Env :=
                        [ { Name := "POSTGRES_USER", Value := "kong" },
                          { Name := "POSTGRES_PASSWORD", Value := "kong" },
                          { Name := "POSTGRES_DB", Value := "kong" },
                          { Name := "PGDATA", Value := "/var/lib/postgresql/data/pgdata" } ]
                      Ports :=
                        [ { Name := "postgres"
                            ContainerPort := 5432
                            Protocol := v1.ProtocolTCP } ]
                      VolumeMounts :=
                        [ { Name := "pg-data"
                            MountPath := "/var/lib/postgresql/data" } ] } ]
                Volumes :=
                  [ { Name := "pg-data"
                      VolumeSource := { EmptyDir := some {} } } ] } } } }

/-- Go `SimplePostgresDeployment` (simple.go, lines 36-125).  The inner `err` of
line 113 shadows the one of line 41. -/
def SimplePostgresDeployment {σ : Type} (k : Kclient σ) (s : σ) (ns : String) :
    Run σ (Option Err) :=
  let replicas : Int := 1
  let got := k.deploymentsGet s ns "postgres"
  let err := got.1.2
  let t1 := [Call.deploymentsGet ns "postgres"]
  match got.1.1 with
  | none => ⟨t1, [], got.2, .nilDeref⟩
  | some deployment =>
    if deployment.Name.length = 0 then
      let l1 := [Log.info ("postgres" ++ " not found, creating...")]
      let deployment := SimplePostgresDeployment.deployment replicas
      let made := k.deploymentsCreate got.2 ns deployment
      let t2 := t1 ++ [Call.deploymentsCreate ns deployment]
      match made.1.2 with
      | some err =>
        ⟨t2, l1 ++ [Log.error ("Could not create kong deployment: " ++ err.Error)], made.2,
          .returned (some err)⟩
      | none => ⟨t2, l1, made.2, .returned none⟩
    else
      match err with
      | some err =>
        ⟨t1, [Log.error ("Could not get admin service: " ++ err.Error)], got.2,
          .returned (some err)⟩
      | none => ⟨t1, [], got.2, .returned none⟩

/-- The `clientSvc` literal of `SimplePostgresService` (simple.go, lines 137-158). -/
def SimplePostgresService.clientSvc : v1.Service :=
  { ObjectMeta := { Name := "postgres", Labels := [("name", "postgres")] }
    Spec :=
      { Selector := [("app", "postgres")]
        Ports :=
          [ { Name := "pgql"
              Port := 5432
              TargetPort := intstr.FromInt 5432
              Protocol := "TCP" } ]
        Type_ := v1.ServiceTypeClusterIP } }

/-- Go `SimplePostgresService` (simple.go, lines 128-172). -/
def SimplePostgresService {σ : Type} (k : Kclient σ) (s : σ) (ns : String) :
    Run σ (Option Err) :=
  let got := k.servicesGet s ns "postgres"
  let err := got.1.2
  let t1 := [Call.servicesGet ns "postgres"]
  match got.1.1 with
  | none => ⟨t1, [], got.2, .nilDeref⟩
  | some svc =>
    if svc.Name.length = 0 then
      let l1 := [Log.info ("postgres" ++ " not found, creating...")]
      let clientSvc := SimplePostgresService.clientSvc
      let made := k.servicesCreate got.2 ns clientSvc
      let t2 := t1 ++ [Call.servicesCreate ns clientSvc]
      match made.1.2 with
      | some err =>
        ⟨t2, l1 ++ [Log.error ("Could not create postgres service: " ++ err.Error)], made.2,
          .returned (some err)⟩
      | none => ⟨t2, l1, made.2, .returned none⟩
    else
      match err with
      | some err =>
        ⟨t1, [Log.error ("Could not get postgres service: " ++ err.Error)], got.2,
          .returned (some err)⟩
      | none => ⟨t1, [], got.2, .returned none⟩

/-- The two log lines after a service Delete (simple.go, lines 178-182 and 185-189). -/
def logServiceDelete : Option Err → List Log
  | some err => [Log.error ("Could not delete service postgres:" ++ err.Error)]
  | none => [Log.info ("Delete service: " ++ "postgres")]

/-- Go `DeleteSimplePostgres` (simple.go, lines 175-230); it returns nothing. -/
def DeleteSimplePostgres {σ : Type} (k : Kclient σ) (s : σ) (ns : String) : Run σ Unit :=
  let del1 := k.servicesDelete s ns "postgres" {}
  let t1 := [Call.servicesDelete ns "postgres" {}]
  let l1 := logServiceDelete del1.1
  let del2 := k.servicesDelete del1.2 ns "postgres" {}
  let t2 := t1 ++ [Call.servicesDelete ns "postgres" {}]
  let l2 := l1 ++ logServiceDelete del2.1
  let got := k.deploymentsGet del2.2 ns "postgres"
  let t3 := t2 ++ [Call.deploymentsGet ns "postgres"]
  let l3 := l2 ++
    (match got.1.2 with
     | some err => [Log.error ("Could not get deployments! " ++ err.Error)]
     | none => [])
  match got.1.1 with
  | none => ⟨t3, l3, got.2, .nilDeref⟩
  | some deployment =>
    let deployment : v1beta1.Deployment :=
      { deployment with Spec := { deployment.Spec with Replicas := some 0 } }
    let upd := k.deploymentsUpdate got.2 ns deployment
    let t4 := t3 ++ [Call.deploymentsUpdate ns deployment]
    let l4 := l3 ++
      (match upd.1.2 with
       | some _ => [Log.error ("Could not scale deployment: " ++ deployment.Name ++ " ")]
       | none => [Log.info ("Scaled deployment: " ++ deployment.Name ++ " to zero")])
    let del3 := k.deploymentsDelete upd.2 ns deployment.Name {}
    let t5 := t4 ++ [Call.deploymentsDelete ns deployment.Name {}]
    let l5 := l4 ++
      (match del3.1 with
       | some _ => [Log.error ("Could not delete deployments: " ++ deployment.Name ++ " ")]
       | none => [Log.info ("Deleted deployment: " ++ deployment.Name)])
    let gotRs := k.replicaSetsGet del3.2 ns "postgres"
    let t6 := t5 ++ [Call.replicaSetsGet ns "postgres"]
    let l6 := l5 ++
      (match gotRs.1.2 with
       | some err => [Log.error ("Could not get replica sets! " ++ err.Error)]
       | none => [])
    match gotRs.1.1 with
    | none => ⟨t6, l6, gotRs.2, .nilDeref⟩
    | some replicaSet =>
      let del4 := k.replicaSetsDelete gotRs.2 ns replicaSet.Name {}
      let t7 := t6 ++ [Call.replicaSetsDelete ns replicaSet.Name {}]
      let l7 := l6 ++
        (match del4.1 with
         | some _ => [Log.error ("Could not delete replica set: " ++ replicaSet.Name ++ " ")]
         | none => [Log.info ("Deleted replica set: " ++ replicaSet.Name)])
      ⟨t7, l7, del4.2, .returned ()⟩

/-! ## Two concrete clients

`storeClient` keeps the objects it was given, per namespace and name, the way
the API server does.  `scripted` answers every call with a fixed response and
keeps no state; it plays an API server that is failing. -/

/-- The objects a cluster holds, each with its namespace. -/
structure Store where
  deployments : List (String × v1beta1.Deployment) := []
  services : List (String × v1.Service) := []
  replicaSets : List (String × v1beta1.ReplicaSet) := []
deriving DecidableEq, Repr

/-- A client backed by a `Store`.  Get answers the stored object, or an empty
object with a not-found error; Create stores the object unless the name is
taken; Update and Delete need the object to be there. -/
def storeClient : Kclient Store where
  deploymentsGet st ns name :=
    match st.deployments.find? (fun p => p.1 == ns && p.2.Name == name) with
    | some p => ((some p.2, none), st)
    | none => ((some {}, some (.notFound (name ++ ": deployments not found"))), st)
  deploymentsCreate st ns d :=
    match st.deployments.find? (fun p => p.1 == ns && p.2.Name == d.Name) with
    | some _ => ((some {}, some (.other (d.Name ++ ": deployments already exists"))), st)
    | none => ((some d, none), { st with deployments := (ns, d) :: st.deployments })
  deploymentsUpdate st ns d :=
    match st.deployments.find? (fun p => p.1 == ns && p.2.Name == d.Name) with
    | some _ =>
      ((some d, none),
        { st with deployments :=
            st.deployments.map (fun p => if p.1 == ns && p.2.Name == d.Name then (ns, d) else p) })
    | none => ((some {}, some (.notFound (d.Name ++ ": deployments not found"))), st)
  deploymentsDelete st ns name _ :=
    match st.deployments.find? (fun p => p.1 == ns && p.2.Name == name) with
    | some _ =>
      (none, { st with deployments :=
                st.deployments.filter (fun p => !(p.1 == ns && p.2.Name == name)) })
    | none => (some (.notFound (name ++ ": deployments not found")), st)
  servicesGet st ns name :=
    match st.services.find? (fun p => p.1 == ns && p.2.Name == name) with
    | some p => ((some p.2, none), st)
    | none => ((some {}, some (.notFound (name ++ ": services not found"))), st)
  servicesCreate st ns svc :=
    match st.services.find? (fun p => p.1 == ns && p.2.Name == svc.Name) with
    | some _ => ((some {}, some (.other (svc.Name ++ ": services already exists"))), st)
    | none => ((some svc, none), { st with services := (ns, svc) :: st.services })
  servicesDelete st ns name _ :=
    match st.services.find? (fun p => p.1 == ns && p.2.Name == name) with
    | some _ =>
      (none, { st with services :=
                st.services.filter (fun p => !(p.1 == ns && p.2.Name == name)) })
    | none => (some (.notFound (name ++ ": services not found")), st)
  replicaSetsGet st ns name :=
    match st.replicaSets.find? (fun p => p.1 == ns && p.2.Name == name) with
    | some p => ((some p.2, none), st)
    | none => ((some {}, some (.notFound (name ++ ": replicasets not found"))), st)
  replicaSetsDelete st ns name _ :=
    match st.replicaSets.find? (fun p => p.1 == ns && p.2.Name == name) with
    | some _ =>
      (none, { st with replicaSets :=
                st.replicaSets.filter (fun p => !(p.1 == ns && p.2.Name == name)) })
    | none => (some (.notFound (name ++ ": replicasets not found")), st)

/-- A stateless client that answers every Get with `(obj, getErr)` for the
empty object or the given one, and every mutating call with `mutErr`. -/
def scripted (dGet : Option v1beta1.Deployment × Option Err)
    (sGet : Option v1.Service × Option Err)
    (rGet : Option v1beta1.ReplicaSet × Option Err) (mutErr : Option Err) : Kclient Unit where
  deploymentsGet _ _ _ := (dGet, ())
  deploymentsCreate _ _ d := ((some d, mutErr), ())
  deploymentsUpdate _ _ d := ((some d, mutErr), ())
  deploymentsDelete _ _ _ _ := (mutErr, ())
  servicesGet _ _ _ := (sGet, ())
  servicesCreate _ _ svc := ((some svc, mutErr), ())
  servicesDelete _ _ _ _ := (mutErr, ())
  replicaSetsGet _ _ _ := (rGet, ())
  replicaSetsDelete _ _ _ _ := (mutErr, ())

/-! ## Vocabulary of the properties -/

/-- The object `deployment` after the assignment of line 199,
`deployment.Spec.Replicas = new(int32)`: a pointer to a zero. -/
def scaledToZero (d : v1beta1.Deployment) : v1beta1.Deployment :=
  { d with Spec := { d.Spec with Replicas := some 0 } }

/-- The response to the `Deployments.Get` call of `DeleteSimplePostgres` (line
192), with the state it leaves: the call is issued in the state left by the two
service deletes before it. -/
def DeleteSimplePostgres.gotDeployment {σ : Type} (k : Kclient σ) (s : σ) (ns : String) :
    (Option v1beta1.Deployment × Option Err) × σ :=
  k.deploymentsGet (k.servicesDelete (k.servicesDelete s ns "postgres" {}).2 ns "postgres" {}).2
    ns "postgres"

/-- The response to the `ReplicaSets.Get` call of `DeleteSimplePostgres` (line
217) when `Deployments.Get` answered the object `d`: the call is issued in the
state left by the Update and the Delete of the deployment. -/
def DeleteSimplePostgres.gotReplicaSet {σ : Type} (k : Kclient σ) (s : σ) (ns : String)
    (d : v1beta1.Deployment) : (Option v1beta1.ReplicaSet × Option Err) × σ :=
  k.replicaSetsGet
    (k.deploymentsDelete
      (k.deploymentsUpdate (DeleteSimplePostgres.gotDeployment k s ns).2 ns (scaledToZero d)).2
      ns (scaledToZero d).Name {}).2
    ns "postgres"

/-- The store law for deployments: a successful Create of an object makes the
Get of its name in its namespace, issued next, return an object of that name
and a nil error. -/
def Kclient.CreatedDeploymentIsGot {σ : Type} (k : Kclient σ) : Prop :=
  ∀ (s : σ) (ns : String) (d : v1beta1.Deployment),
    (k.deploymentsCreate s ns d).1.2 = none →
      ∃ d1, (k.deploymentsGet (k.deploymentsCreate s ns d).2 ns d.Name).1 = (some d1, none) ∧
        d1.Name = d.Name

/-- The store law for services: a successful Create of an object makes the Get
of its name in its namespace, issued next, return an object of that name and a
nil error. -/
def Kclient.CreatedServiceIsGot {σ : Type} (k : Kclient σ) : Prop :=
  ∀ (s : σ) (ns : String) (svc : v1.Service),
    (k.servicesCreate s ns svc).1.2 = none →
      ∃ svc1, (k.servicesGet (k.servicesCreate s ns svc).2 ns svc.Name).1 = (some svc1, none) ∧
        svc1.Name = svc.Name

/-- Every Get of the client answers with a non-nil object (possibly the empty
one), as the REST client does. -/
def Kclient.GetsNonNil {σ : Type} (k : Kclient σ) : Prop :=
  (∀ s ns name, (k.deploymentsGet s ns name).1.1 ≠ none) ∧
  (∀ s ns name, (k.servicesGet s ns name).1.1 ≠ none) ∧
  (∀ s ns name, (k.replicaSetsGet s ns name).1.1 ≠ none)

/-- Equality-based label selection: every key of the selector is a label of the
pod with the same value. -/
def selects (selector labels : List (String × String)) : Bool :=
  selector.all (fun p => labels.lookup p.1 == some p.2)

def Call.isReplicaSetsDelete : Call → Bool
  | .replicaSetsDelete _ _ _ => true
  | _ => false

/-! ## Concrete inputs -/

/-- A cluster that holds the postgres deployment, service and replica set in
namespace "default". -/
def clusterWithPostgres : Store :=
  { deployments := [("default", SimplePostgresDeployment.deployment 1)]
    services := [("default", SimplePostgresService.clientSvc)]
    replicaSets := [("default", { ObjectMeta := { Name := "postgres" } })] }

/-- An API server whose lookups fail with an error that is not a not-found
(every Get answers the empty object and that error) while mutations succeed. -/
def lookupFails : Kclient Unit :=
  scripted (some {}, some (.other "connection refused"))
    (some {}, some (.other "connection refused"))
    (some {}, some (.other "connection refused")) none

/-! ## How each routine runs, case by case -/

theorem SimplePostgresDeployment_nil {σ : Type} (k : Kclient σ) (s : σ) (ns : String)
    (h : (k.deploymentsGet s ns "postgres").1.1 = none) :
    SimplePostgresDeployment k s ns =
      ⟨[Call.deploymentsGet ns "postgres"], [], (k.deploymentsGet s ns "postgres").2,
        .nilDeref⟩ := by
  simp only [SimplePostgresDeployment, h]

theorem SimplePostgresDeployment_absent {σ : Type} (k : Kclient σ) (s : σ) (ns : String)
    (d : v1beta1.Deployment) (h : (k.deploymentsGet s ns "postgres").1.1 = some d)
    (hd : d.Name.length = 0) :
    (SimplePostgresDeployment k s ns).trace =
        [Call.deploymentsGet ns "postgres",
          Call.deploymentsCreate ns (SimplePostgresDeployment.deployment 1)] ∧
      (SimplePostgresDeployment k s ns).state =
        (k.deploymentsCreate (k.deploymentsGet s ns "postgres").2 ns
          (SimplePostgresDeployment.deployment 1)).2 ∧
      (SimplePostgresDeployment k s ns).result =
        .returned (k.deploymentsCreate (k.deploymentsGet s ns "postgres").2 ns
          (SimplePostgresDeployment.deployment 1)).1.2 := by
  simp only [SimplePostgresDeployment, h, hd, if_true]
  split <;> simp_all

theorem SimplePostgresDeployment_present {σ : Type} (k : Kclient σ) (s : σ) (ns : String)
    (d : v1beta1.Deployment) (h : (k.deploymentsGet s ns "postgres").1.1 = some d)
    (hd : d.Name.length ≠ 0) :
    (SimplePostgresDeployment k s ns).trace = [Call.deploymentsGet ns "postgres"] ∧
      (SimplePostgresDeployment k s ns).state = (k.deploymentsGet s ns "postgres").2 ∧
      (SimplePostgresDeployment k s ns).result =
        .returned (k.deploymentsGet s ns "postgres").1.2 := by
  simp only [SimplePostgresDeployment, h, hd, if_false]
  split <;> simp_all

theorem SimplePostgresService_nil {σ : Type} (k : Kclient σ) (s : σ) (ns : String)
    (h : (k.servicesGet s ns "postgres").1.1 = none) :
    SimplePostgresService k s ns =
      ⟨[Call.servicesGet ns "postgres"], [], (k.servicesGet s ns "postgres").2, .nilDeref⟩ := by
  simp only [SimplePostgresService, h]

theorem SimplePostgresService_absent {σ : Type} (k : Kclient σ) (s : σ) (ns : String)
    (svc : v1.Service) (h : (k.servicesGet s ns "postgres").1.1 = some svc)
    (hd : svc.Name.length = 0) :
    (SimplePostgresService k s ns).trace =
        [Call.servicesGet ns "postgres",
          Call.servicesCreate ns SimplePostgresService.clientSvc] ∧
      (SimplePostgresService k s ns).state =
        (k.servicesCreate (k.servicesGet s ns "postgres").2 ns
          SimplePostgresService.clientSvc).2 ∧
      (SimplePostgresService k s ns).result =
        .returned (k.servicesCreate (k.servicesGet s ns "postgres").2 ns
          SimplePostgresService.clientSvc).1.2 := by
  simp only [SimplePostgresService, h, hd, if_true]
  split <;> simp_all

theorem SimplePostgresService_present {σ : Type} (k : Kclient σ) (s : σ) (ns : String)
    (svc : v1.Service) (h : (k.servicesGet s ns "postgres").1.1 = some svc)
    (hd : svc.Name.length ≠ 0) :
    (SimplePostgresService k s ns).trace = [Call.servicesGet ns "postgres"] ∧
      (SimplePostgresService k s ns).state = (k.servicesGet s ns "postgres").2 ∧
      (SimplePostgresService k s ns).result = .returned (k.servicesGet s ns "postgres").1.2 := by
  simp only [SimplePostgresService, h, hd, if_false]
  split <;> simp_all

/-- What `SimplePostgresDeployment` returns when Get answers an object: the
error of the Create it issued if the object has an empty name, else the error
of the Get. -/
theorem SimplePostgresDeployment_result {σ : Type} (k : Kclient σ) (s : σ) (ns : String)
    (d : v1beta1.Deployment) (hd : (k.deploymentsGet s ns "postgres").1.1 = some d) :
    (SimplePostgresDeployment k s ns).result =
      .returned
        (if d.Name.length = 0 then
          (k.deploymentsCreate (k.deploymentsGet s ns "postgres").2 ns
            (SimplePostgresDeployment.deployment 1)).1.2
        else (k.deploymentsGet s ns "postgres").1.2) := by
  by_cases hname : d.Name.length = 0
  · rw [if_pos hname]; exact (SimplePostgresDeployment_absent k s ns d hd hname).2.2
  · rw [if_neg hname]; exact (SimplePostgresDeployment_present k s ns d hd hname).2.2

/-- What `SimplePostgresService` returns when Get answers an object: the error
of the Create it issued if the object has an empty name, else the error of the
Get. -/
theorem SimplePostgresService_result {σ : Type} (k : Kclient σ) (s : σ) (ns : String)
    (svc : v1.Service) (hs : (k.servicesGet s ns "postgres").1.1 = some svc) :
    (SimplePostgresService k s ns).result =
      .returned
        (if svc.Name.length = 0 then
          (k.servicesCreate (k.servicesGet s ns "postgres").2 ns
            SimplePostgresService.clientSvc).1.2
        else (k.servicesGet s ns "postgres").1.2) := by
  by_cases hname : svc.Name.length = 0
  · rw [if_pos hname]; exact (SimplePostgresService_absent k s ns svc hs hname).2.2
  · rw [if_neg hname]; exact (SimplePostgresService_present k s ns svc hs hname).2.2

theorem DeleteSimplePostgres_nil_deployment {σ : Type} (k : Kclient σ) (s : σ) (ns : String)
    (h : (DeleteSimplePostgres.gotDeployment k s ns).1.1 = none) :
    (DeleteSimplePostgres k s ns).trace =
        [Call.servicesDelete ns "postgres" {}, Call.servicesDelete ns "postgres" {},
          Call.deploymentsGet ns "postgres"] ∧
      (DeleteSimplePostgres k s ns).result = .nilDeref := by
  simp only [DeleteSimplePostgres.gotDeployment] at h
  simp [DeleteSimplePostgres, h]

theorem DeleteSimplePostgres_nil_replicaSet {σ : Type} (k : Kclient σ) (s : σ) (ns : String)
    (d : v1beta1.Deployment) (h : (DeleteSimplePostgres.gotDeployment k s ns).1.1 = some d)
    (hr : (DeleteSimplePostgres.gotReplicaSet k s ns d).1.1 = none) :
    (DeleteSimplePostgres k s ns).trace =
        [Call.servicesDelete ns "postgres" {}, Call.servicesDelete ns "postgres" {},
          Call.deploymentsGet ns "postgres", Call.deploymentsUpdate ns (scaledToZero d),
          Call.deploymentsDelete ns d.Name {}, Call.replicaSetsGet ns "postgres"] ∧
      (DeleteSimplePostgres k s ns).result = .nilDeref := by
  simp only [DeleteSimplePostgres.gotReplicaSet, DeleteSimplePostgres.gotDeployment,
    scaledToZero] at h hr
  simp [DeleteSimplePostgres, h, hr, scaledToZero]

theorem DeleteSimplePostgres_complete {σ : Type} (k : Kclient σ) (s : σ) (ns : String)
    (d : v1beta1.Deployment) (rs : v1beta1.ReplicaSet)
    (h : (DeleteSimplePostgres.gotDeployment k s ns).1.1 = some d)
    (hr : (DeleteSimplePostgres.gotReplicaSet k s ns d).1.1 = some rs) :
    (DeleteSimplePostgres k s ns).trace =
        [Call.servicesDelete ns "postgres" {}, Call.servicesDelete ns "postgres" {},
          Call.deploymentsGet ns "postgres", Call.deploymentsUpdate ns (scaledToZero d),
          Call.deploymentsDelete ns d.Name {}, Call.replicaSetsGet ns "postgres",
          Call.replicaSetsDelete ns rs.Name {}] ∧
      (DeleteSimplePostgres k s ns).result = .returned () := by
  simp only [DeleteSimplePostgres.gotReplicaSet, DeleteSimplePostgres.gotDeployment,
    scaledToZero] at h hr
  simp [DeleteSimplePostgres, h, hr, scaledToZero]

/-! ## The store client obeys the store laws -/

theorem storeClient_createdDeploymentIsGot : storeClient.CreatedDeploymentIsGot := by
  intro s ns d h
  simp only [storeClient] at h ⊢
  split at h
  · simp at h
  · simp

theorem storeClient_createdServiceIsGot : storeClient.CreatedServiceIsGot := by
  intro s ns svc h
  simp only [storeClient] at h ⊢
  split at h
  · simp at h
  · simp

theorem storeClient_getsNonNil : storeClient.GetsNonNil := by
  refine ⟨?_, ?_, ?_⟩ <;> intro s ns name <;> simp only [storeClient] <;> split <;> simp

/-! ## The claims -/

/-- C1 (idempotence of the two ensure operations).  Each routine on its own
hypotheses: over a client that obeys the store law of the kind concerned, in a
state where Get of "postgres" of that kind answers an object with an empty name
and the Create of the fixed object succeeds, running the routine twice in a row
issues one Create in all: the first run is Get then Create, the second run is
the Get alone (no Create, no mutating call), and both runs return nil.  Nothing
is asked of the other kind. -/
theorem ensure_twice_issues_one_create {σ : Type} (k : Kclient σ) :
    (∀ (s : σ) (ns : String), k.CreatedDeploymentIsGot →
      (∃ d0, (k.deploymentsGet s ns "postgres").1.1 = some d0 ∧ d0.Name.length = 0) →
      (k.deploymentsCreate (k.deploymentsGet s ns "postgres").2 ns
        (SimplePostgresDeployment.deployment 1)).1.2 = none →
      (SimplePostgresDeployment k s ns).trace =
          [Call.deploymentsGet ns "postgres",
            Call.deploymentsCreate ns (SimplePostgresDeployment.deployment 1)] ∧
        (SimplePostgresDeployment k (SimplePostgresDeployment k s ns).state ns).trace =
          [Call.deploymentsGet ns "postgres"] ∧
        ((SimplePostgresDeployment k s ns).trace ++
            (SimplePostgresDeployment k (SimplePostgresDeployment k s ns).state ns).trace).countP
          (fun c => c.kind.2 == Verb.create) = 1 ∧
        (SimplePostgresDeployment k (SimplePostgresDeployment k s ns).state ns).trace.all
          (fun c => !c.isMutating) = true ∧
        (SimplePostgresDeployment k s ns).result = .returned none ∧
        (SimplePostgresDeployment k (SimplePostgresDeployment k s ns).state ns).result =
          .returned none) ∧
    (∀ (s : σ) (ns : String), k.CreatedServiceIsGot →
      (∃ svc0, (k.servicesGet s ns "postgres").1.1 = some svc0 ∧ svc0.Name.length = 0) →
      (k.servicesCreate (k.servicesGet s ns "postgres").2 ns
        SimplePostgresService.clientSvc).1.2 = none →
      (SimplePostgresService k s ns).trace =
          [Call.servicesGet ns "postgres",
            Call.servicesCreate ns SimplePostgresService.clientSvc] ∧
        (SimplePostgresService k (SimplePostgresService k s ns).state ns).trace =
          [Call.servicesGet ns "postgres"] ∧
        ((SimplePostgresService k s ns).trace ++
            (SimplePostgresService k (SimplePostgresService k s ns).state ns).trace).countP
          (fun c => c.kind.2 == Verb.create) = 1 ∧
        (SimplePostgresService k (SimplePostgresService k s ns).state ns).trace.all
          (fun c => !c.isMutating) = true ∧
        (SimplePostgresService k s ns).result = .returned none ∧
        (SimplePostgresService k (SimplePostgresService k s ns).state ns).result =
          .returned none) := by
  constructor
  · intro s ns lawD absentD createD
    obtain ⟨d0, hget, hname⟩ := absentD
    obtain ⟨t1, s1, r1⟩ := SimplePostgresDeployment_absent k s ns d0 hget hname
    obtain ⟨d1, hget1, hname1⟩ := lawD _ ns _ createD
    have hpost : (SimplePostgresDeployment.deployment 1).Name = "postgres" := rfl
    rw [hpost] at hget1 hname1
    have hget2 : (k.deploymentsGet (SimplePostgresDeployment k s ns).state ns "postgres").1.1 =
        some d1 := by rw [s1, hget1]
    have hlen : d1.Name.length ≠ 0 := by rw [hname1]; decide
    obtain ⟨t2, _, r2⟩ := SimplePostgresDeployment_present k _ ns d1 hget2 hlen
    have herr : (k.deploymentsGet (SimplePostgresDeployment k s ns).state ns "postgres").1.2 =
        none := by rw [s1, hget1]
    refine ⟨t1, t2, ?_, ?_, ?_, ?_⟩
    · rw [t1, t2]; rfl
    · rw [t2]; rfl
    · rw [r1, createD]
    · rw [r2, herr]
  · intro s ns lawS absentS createS
    obtain ⟨d0, hget, hname⟩ := absentS
    obtain ⟨t1, s1, r1⟩ := SimplePostgresService_absent k s ns d0 hget hname
    obtain ⟨d1, hget1, hname1⟩ := lawS _ ns _ createS
    have hpost : SimplePostgresService.clientSvc.Name = "postgres" := rfl
    rw [hpost] at hget1 hname1
    have hget2 : (k.servicesGet (SimplePostgresService k s ns).state ns "postgres").1.1 =
        some d1 := by rw [s1, hget1]
    have hlen : d1.Name.length ≠ 0 := by rw [hname1]; decide
    obtain ⟨t2, _, r2⟩ := SimplePostgresService_present k _ ns d1 hget2 hlen
    have herr : (k.servicesGet (SimplePostgresService k s ns).state ns "postgres").1.2 =
        none := by rw [s1, hget1]
    refine ⟨t1, t2, ?_, ?_, ?_, ?_⟩
    · rw [t1, t2]; rfl
    · rw [t2]; rfl
    · rw [r1, createS]
    · rw [r2, herr]

/-- Witness of C1: the store client in namespace "default".  The deployment
routine runs twice on the empty cluster; the service routine runs twice on the
cluster the deployment routine left, where the deployment already exists and
only the service is absent. -/
theorem ensure_twice_issues_one_create_witness :
    ((SimplePostgresDeployment storeClient {} "default").trace ++
        (SimplePostgresDeployment storeClient
          (SimplePostgresDeployment storeClient {} "default").state "default").trace).countP
      (fun c => c.kind.2 == Verb.create) = 1 ∧
    (storeClient.deploymentsGet (SimplePostgresDeployment storeClient {} "default").state
        "default" "postgres").1 = (some (SimplePostgresDeployment.deployment 1), none) ∧
    ((SimplePostgresService storeClient
          (SimplePostgresDeployment storeClient {} "default").state "default").trace ++
        (SimplePostgresService storeClient
          (SimplePostgresService storeClient
            (SimplePostgresDeployment storeClient {} "default").state "default").state
          "default").trace).countP
      (fun c => c.kind.2 == Verb.create) = 1 :=
  ⟨((ensure_twice_issues_one_create storeClient).1 {} "default"
      storeClient_createdDeploymentIsGot ⟨{}, rfl, rfl⟩ rfl).2.2.1,
    rfl,
    ((ensure_twice_issues_one_create storeClient).2
      (SimplePostgresDeployment storeClient {} "default").state "default"
      storeClient_createdServiceIsGot ⟨{}, rfl, rfl⟩ rfl).2.2.1⟩

/-- C2 (the code against the claim).  The Get response carries an error other
than not-found, with the zero object that the REST client hands back on every
failed Get; the name test of line 43 comes before the error test of line 119,
so the run still issues a Create and the branch that returns the lookup error
is not reached. -/
theorem lookup_error_still_creates :
    (lookupFails.deploymentsGet () "default" "postgres").1 =
        (some {}, some (Err.other "connection refused")) ∧
      (Err.other "connection refused").IsNotFound = false ∧
      (SimplePostgresDeployment lookupFails () "default").trace =
        [Call.deploymentsGet "default" "postgres",
          Call.deploymentsCreate "default" (SimplePostgresDeployment.deployment 1)] ∧
      (SimplePostgresDeployment lookupFails () "default").trace ≠
        [Call.deploymentsGet "default" "postgres"] := by
  refine ⟨rfl, rfl, rfl, ?_⟩
  decide

/-- C3 (the code against the claim).  The existence check fails with an error
other than not-found (the zero object comes with it), the Create succeeds, and
both routines return nil: the lookup error is lost, in `SimplePostgresDeployment`
and in `SimplePostgresService` alike. -/
theorem lookup_error_swallowed :
    (lookupFails.deploymentsGet () "default" "postgres").1.2 =
        some (Err.other "connection refused") ∧
      (lookupFails.servicesGet () "default" "postgres").1.2 =
        some (Err.other "connection refused") ∧
      (Err.other "connection refused").IsNotFound = false ∧
      (SimplePostgresDeployment lookupFails () "default").result = .returned none ∧
      (SimplePostgresService lookupFails () "default").result = .returned none :=
  ⟨rfl, rfl, rfl, rfl, rfl⟩

/-- C4 (the code against the claim).  Every run of `DeleteSimplePostgres` issues
the service Delete twice (lines 177 and 184), whatever the client answers; a
run that returns has issued seven calls, not six.  Apart from the repeated
service Delete the calls are those the claim lists. -/
theorem teardown_deletes_service_twice {σ : Type} (k : Kclient σ) (s : σ) (ns : String) :
    (DeleteSimplePostgres k s ns).trace.countP Call.isServicesDelete = 2 ∧
      (DeleteSimplePostgres k s ns).trace.take 2 =
        [Call.servicesDelete ns "postgres" {}, Call.servicesDelete ns "postgres" {}] ∧
      ((DeleteSimplePostgres k s ns).result = .returned () →
        (DeleteSimplePostgres k s ns).trace.length = 7 ∧
        (DeleteSimplePostgres k s ns).trace.map Call.kind =
          [(.services, .delete), (.services, .delete), (.deployments, .get),
            (.deployments, .update), (.deployments, .delete), (.replicaSets, .get),
            (.replicaSets, .delete)]) := by
  cases h : (DeleteSimplePostgres.gotDeployment k s ns).1.1 with
  | none =>
    obtain ⟨t, r⟩ := DeleteSimplePostgres_nil_deployment k s ns h
    rw [t, r]
    simp [Call.isServicesDelete]
  | some d =>
    cases hr : (DeleteSimplePostgres.gotReplicaSet k s ns d).1.1 with
    | none =>
      obtain ⟨t, r⟩ := DeleteSimplePostgres_nil_replicaSet k s ns d h hr
      rw [t, r]
      simp [Call.isServicesDelete]
    | some rs =>
      obtain ⟨t, r⟩ := DeleteSimplePostgres_complete k s ns d rs h hr
      rw [t, r]
      simp [Call.isServicesDelete, Call.kind]

/-- C5 (ordering of the teardown).  In the call trace of every run of
`DeleteSimplePostgres`, every service Delete stands before every deployment
Update, every deployment Update stands before every deployment Delete, and
every deployment Update carries an object whose replica count is zero.  When
`Deployments.Get` answers an object, the service Deletes are calls 0 and 1, the
Update of that object scaled to zero is call 3 and the deployment Delete is
call 4. -/
theorem teardown_order {σ : Type} (k : Kclient σ) (s : σ) (ns : String) :
    (∀ (i j : Nat) (ci cj : Call),
        (DeleteSimplePostgres k s ns).trace[i]? = some ci → ci.isServicesDelete = true →
        (DeleteSimplePostgres k s ns).trace[j]? = some cj → cj.isDeploymentsUpdate = true →
        i < j) ∧
      (∀ (j l : Nat) (cj cl : Call),
        (DeleteSimplePostgres k s ns).trace[j]? = some cj → cj.isDeploymentsUpdate = true →
        (DeleteSimplePostgres k s ns).trace[l]? = some cl → cl.isDeploymentsDelete = true →
        j < l) ∧
      (∀ c ∈ (DeleteSimplePostgres k s ns).trace, c.isDeploymentsUpdate = true →
        ∃ d, c = Call.deploymentsUpdate ns d ∧ d.Spec.Replicas = some 0) ∧
      (∀ d, (DeleteSimplePostgres.gotDeployment k s ns).1.1 = some d →
        (DeleteSimplePostgres k s ns).trace[0]? = some (Call.servicesDelete ns "postgres" {}) ∧
        (DeleteSimplePostgres k s ns).trace[1]? = some (Call.servicesDelete ns "postgres" {}) ∧
        (DeleteSimplePostgres k s ns).trace[3]? =
          some (Call.deploymentsUpdate ns (scaledToZero d)) ∧
        (DeleteSimplePostgres k s ns).trace[4]? =
          some (Call.deploymentsDelete ns d.Name {})) := by
  cases h : (DeleteSimplePostgres.gotDeployment k s ns).1.1 with
  | none =>
    rw [(DeleteSimplePostgres_nil_deployment k s ns h).1]
    refine ⟨?_, ?_, ?_, ?_⟩
    · intro i j ci cj hi hpi hj hqj
      rcases i with _|_|_|i <;> rcases j with _|_|_|j <;>
        simp at hi hj <;> subst hi <;> subst hj <;>
        simp_all [Call.isServicesDelete, Call.isDeploymentsUpdate]
    · intro j l cj cl hj hqj hl hpl
      rcases j with _|_|_|j <;> rcases l with _|_|_|l <;>
        simp at hj hl <;> subst hj <;> subst hl <;>
        simp_all [Call.isDeploymentsDelete, Call.isDeploymentsUpdate]
    · intro c hc hu
      simp at hc
      rcases hc with rfl | rfl <;> simp [Call.isDeploymentsUpdate] at hu
    · intro d hd
      simp at hd
  | some d =>
    have hshape : ∃ rest, (DeleteSimplePostgres k s ns).trace =
        [Call.servicesDelete ns "postgres" {}, Call.servicesDelete ns "postgres" {},
          Call.deploymentsGet ns "postgres", Call.deploymentsUpdate ns (scaledToZero d),
          Call.deploymentsDelete ns d.Name {}, Call.replicaSetsGet ns "postgres"] ++ rest ∧
        (rest = [] ∨ ∃ n, rest = [Call.replicaSetsDelete ns n {}]) := by
      cases hr : (DeleteSimplePostgres.gotReplicaSet k s ns d).1.1 with
      | none =>
        exact ⟨[], by rw [(DeleteSimplePostgres_nil_replicaSet k s ns d h hr).1]; rfl, Or.inl rfl⟩
      | some rs =>
        exact ⟨_, by rw [(DeleteSimplePostgres_complete k s ns d rs h hr).1]; rfl,
          Or.inr ⟨rs.Name, rfl⟩⟩
    obtain ⟨rest, ht, hrest⟩ := hshape
    rw [ht]
    refine ⟨?_, ?_, ?_, ?_⟩
    · intro i j ci cj hi hpi hj hqj
      rcases hrest with rfl | ⟨n, rfl⟩ <;>
        rcases i with _|_|_|_|_|_|_|i <;> rcases j with _|_|_|_|_|_|_|j <;>
        simp at hi hj <;> subst hi <;> subst hj <;>
        simp_all [Call.isServicesDelete, Call.isDeploymentsUpdate]
    · intro j l cj cl hj hqj hl hpl
      rcases hrest with rfl | ⟨n, rfl⟩ <;>
        rcases j with _|_|_|_|_|_|_|j <;> rcases l with _|_|_|_|_|_|_|l <;>
        simp at hj hl <;> subst hj <;> subst hl <;>
        simp_all [Call.isDeploymentsDelete, Call.isDeploymentsUpdate]
    · intro c hc hu
      rcases hrest with rfl | ⟨n, rfl⟩ <;> simp at hc <;>
        rcases hc with rfl | rfl | rfl | rfl | rfl | rfl <;>
        simp [Call.isDeploymentsUpdate, scaledToZero] at hu ⊢
    · intro d1 hd1
      simp at hd1
      subst hd1
      simp
  
/-- Witness of C5: the teardown of a cluster that holds the postgres objects. -/
theorem teardown_order_witness :
    (DeleteSimplePostgres storeClient clusterWithPostgres "default").trace[1]? =
        some (Call.servicesDelete "default" "postgres" {}) ∧
      (DeleteSimplePostgres storeClient clusterWithPostgres "default").trace[3]? =
        some (Call.deploymentsUpdate "default"
          (scaledToZero (SimplePostgresDeployment.deployment 1))) ∧
      (DeleteSimplePostgres storeClient clusterWithPostgres "default").trace[4]? =
        some (Call.deploymentsDelete "default" "postgres" {}) ∧
      1 < 3 ∧ 3 < 4 :=
  ⟨rfl, rfl, rfl,
    (teardown_order storeClient clusterWithPostgres "default").1 1 3 _ _ rfl rfl rfl rfl,
    (teardown_order storeClient clusterWithPostgres "default").2.1 3 4 _ _ rfl rfl rfl rfl⟩

/-- Counterexample to C6 as stated: on the empty cluster `Deployments.Get`
reports not-found (it did not find the deployment), and the run still issues
the Update, on the empty object that came with the error. -/
theorem teardown_updates_when_not_found :
    (DeleteSimplePostgres.gotDeployment storeClient {} "default").1 =
        (some {}, some (Err.notFound "postgres: deployments not found")) ∧
      Call.deploymentsUpdate "default" (scaledToZero {}) ∈
        (DeleteSimplePostgres storeClient {} "default").trace ∧
      (DeleteSimplePostgres storeClient {} "default").trace.any Call.isDeploymentsUpdate =
        true := by
  refine ⟨rfl, ?_, rfl⟩
  decide

/-- C6 (amended).  Whenever `Deployments.Get` answers an object, with or without
an error, `DeleteSimplePostgres` issues exactly one Update call, on that object
with its replica count set to zero. -/
theorem teardown_updates_whatever_get_reports {σ : Type} (k : Kclient σ) (s : σ) (ns : String)
    (d : v1beta1.Deployment)
    (hget : (DeleteSimplePostgres.gotDeployment k s ns).1.1 = some d) :
    (DeleteSimplePostgres k s ns).trace.filter Call.isDeploymentsUpdate =
        [Call.deploymentsUpdate ns (scaledToZero d)] ∧
      (scaledToZero d).Spec.Replicas = some 0 ∧
      (scaledToZero d).ObjectMeta = d.ObjectMeta ∧
      (scaledToZero d).Spec.Template = d.Spec.Template := by
  refine ⟨?_, rfl, rfl, rfl⟩
  cases hr : (DeleteSimplePostgres.gotReplicaSet k s ns d).1.1 with
  | none =>
    rw [(DeleteSimplePostgres_nil_replicaSet k s ns d hget hr).1]
    simp [List.filter, Call.isDeploymentsUpdate]
  | some rs =>
    rw [(DeleteSimplePostgres_complete k s ns d rs hget hr).1]
    simp [List.filter, Call.isDeploymentsUpdate]

/-- Witness of C6 (amended): a lookup that fails with an error other than
not-found; the Update is issued on the empty object. -/
theorem teardown_updates_whatever_get_reports_witness :
    (DeleteSimplePostgres.gotDeployment lookupFails () "default").1 =
        (some {}, some (Err.other "connection refused")) ∧
      (DeleteSimplePostgres lookupFails () "default").trace.filter Call.isDeploymentsUpdate =
        [Call.deploymentsUpdate "default" (scaledToZero {})] :=
  ⟨rfl, (teardown_updates_whatever_get_reports lookupFails () "default" {} rfl).1⟩

/-- C7 (best-effort teardown).  Over a client whose Gets answer a non-nil
object, every run of `DeleteSimplePostgres` returns (it raises nothing), and
the operation kinds it issues are one fixed sequence, whatever succeeded or
failed. -/
theorem teardown_runs_every_step {σ : Type} (k : Kclient σ) (s : σ) (ns : String)
    (hnn : k.GetsNonNil) :
    (DeleteSimplePostgres k s ns).result = .returned () ∧
      (DeleteSimplePostgres k s ns).trace.map Call.kind =
        [(.services, .delete), (.services, .delete), (.deployments, .get),
          (.deployments, .update), (.deployments, .delete), (.replicaSets, .get),
          (.replicaSets, .delete)] := by
  obtain ⟨hd, _, hrs⟩ := hnn
  cases h : (DeleteSimplePostgres.gotDeployment k s ns).1.1 with
  | none => exact absurd h (hd _ _ _)
  | some d =>
    cases hr : (DeleteSimplePostgres.gotReplicaSet k s ns d).1.1 with
    | none => exact absurd hr (hrs _ _ _)
    | some rs =>
      obtain ⟨t, r⟩ := DeleteSimplePostgres_complete k s ns d rs h hr
      rw [t, r]
      simp [Call.kind]

/-- Witness of C7: the teardown of the empty cluster, where every step fails. -/
theorem teardown_runs_every_step_witness :
    storeClient.GetsNonNil ∧
      (DeleteSimplePostgres storeClient {} "default").result = .returned () ∧
      (DeleteSimplePostgres storeClient {} "default").trace.map Call.kind =
        [(.services, .delete), (.services, .delete), (.deployments, .get),
          (.deployments, .update), (.deployments, .delete), (.replicaSets, .get),
          (.replicaSets, .delete)] :=
  ⟨storeClient_getsNonNil,
    teardown_runs_every_step storeClient {} "default" storeClient_getsNonNil⟩

/-- Counterexample to C8 as stated: on the empty cluster both Gets report
not-found with an empty-named object, and both Deletes are called with the
empty name, not with "postgres". -/
theorem teardown_deletes_empty_name :
    (DeleteSimplePostgres storeClient {} "default").trace.filter Call.isDeploymentsDelete =
        [Call.deploymentsDelete "default" "" {}] ∧
      (DeleteSimplePostgres storeClient {} "default").trace.filter Call.isReplicaSetsDelete =
        [Call.replicaSetsDelete "default" "" {}] ∧
      Call.deploymentsDelete "default" "postgres" {} ∉
        (DeleteSimplePostgres storeClient {} "default").trace ∧
      Call.replicaSetsDelete "default" "postgres" {} ∉
        (DeleteSimplePostgres storeClient {} "default").trace := by
  refine ⟨rfl, rfl, ?_, ?_⟩ <;> decide

/-- C8 (amended).  `DeleteSimplePostgres` deletes the workload and the
replica-management resource by the name of the object the matching Get
returned: the one `Deployments.Delete` call names `deployment.Name` and the one
`ReplicaSets.Delete` call names `replicaSet.Name`; each is "postgres" when the
Get answered an object of that name. -/
theorem teardown_deletes_by_returned_name {σ : Type} (k : Kclient σ) (s : σ) (ns : String)
    (d : v1beta1.Deployment) (rs : v1beta1.ReplicaSet)
    (hget : (DeleteSimplePostgres.gotDeployment k s ns).1.1 = some d)
    (hgetRs : (DeleteSimplePostgres.gotReplicaSet k s ns d).1.1 = some rs) :
    (DeleteSimplePostgres k s ns).trace.filter Call.isDeploymentsDelete =
        [Call.deploymentsDelete ns d.Name {}] ∧
      (DeleteSimplePostgres k s ns).trace.filter Call.isReplicaSetsDelete =
        [Call.replicaSetsDelete ns rs.Name {}] ∧
      (d.Name = "postgres" →
        (DeleteSimplePostgres k s ns).trace.filter Call.isDeploymentsDelete =
          [Call.deploymentsDelete ns "postgres" {}]) ∧
      (rs.Name = "postgres" →
        (DeleteSimplePostgres k s ns).trace.filter Call.isReplicaSetsDelete =
          [Call.replicaSetsDelete ns "postgres" {}]) := by
  rw [(DeleteSimplePostgres_complete k s ns d rs hget hgetRs).1]
  refine ⟨?_, ?_, ?_, ?_⟩
  · simp [List.filter, Call.isDeploymentsDelete]
  · simp [List.filter, Call.isReplicaSetsDelete]
  · intro hn
    simp [List.filter, Call.isDeploymentsDelete, hn]
  · intro hn
    simp [List.filter, Call.isReplicaSetsDelete, hn]

/-- Witness of C8 (amended): the teardown of a cluster that holds the objects. -/
theorem teardown_deletes_by_returned_name_witness :
    (DeleteSimplePostgres.gotDeployment storeClient clusterWithPostgres "default").1.1 =
        some (SimplePostgresDeployment.deployment 1) ∧
      (DeleteSimplePostgres storeClient clusterWithPostgres "default").trace.filter
          Call.isDeploymentsDelete =
        [Call.deploymentsDelete "default" "postgres" {}] ∧
      (DeleteSimplePostgres storeClient clusterWithPostgres "default").trace.filter
          Call.isReplicaSetsDelete =
        [Call.replicaSetsDelete "default" "postgres" {}] :=
  ⟨rfl,
    (teardown_deletes_by_returned_name storeClient clusterWithPostgres "default"
      (SimplePostgresDeployment.deployment 1) { ObjectMeta := { Name := "postgres" } }
      rfl rfl).1,
    (teardown_deletes_by_returned_name storeClient clusterWithPostgres "default"
      (SimplePostgresDeployment.deployment 1) { ObjectMeta := { Name := "postgres" } }
      rfl rfl).2.1⟩

/-! ## The objects handed to Create -/

theorem created_deployment_eq {σ : Type} (k : Kclient σ) (s : σ) (ns ns1 : String)
    (d : v1beta1.Deployment)
    (h : Call.deploymentsCreate ns1 d ∈ (SimplePostgresDeployment k s ns).trace) :
    ns1 = ns ∧ d = SimplePostgresDeployment.deployment 1 := by
  cases hg : (k.deploymentsGet s ns "postgres").1.1 with
  | none =>
    rw [SimplePostgresDeployment_nil k s ns hg] at h
    simp at h
  | some d0 =>
    by_cases hn : d0.Name.length = 0
    · rw [(SimplePostgresDeployment_absent k s ns d0 hg hn).1] at h
      simpa using h
    · rw [(SimplePostgresDeployment_present k s ns d0 hg hn).1] at h
      simp at h

theorem created_service_eq {σ : Type} (k : Kclient σ) (s : σ) (ns ns1 : String)
    (svc : v1.Service)
    (h : Call.servicesCreate ns1 svc ∈ (SimplePostgresService k s ns).trace) :
    ns1 = ns ∧ svc = SimplePostgresService.clientSvc := by
  cases hg : (k.servicesGet s ns "postgres").1.1 with
  | none =>
    rw [SimplePostgresService_nil k s ns hg] at h
    simp at h
  | some svc0 =>
    by_cases hn : svc0.Name.length = 0
    · rw [(SimplePostgresService_absent k s ns svc0 hg hn).1] at h
      simpa using h
    · rw [(SimplePostgresService_present k s ns svc0 hg hn).1] at h
      simp at h

/-- C9 (the created workload is the fixed specification).  When
`Deployments.Get` answers an object with an empty name, the run issues one
Create, of an object `obj` that is the same for every namespace and every Get
response: named "postgres", one replica, one container of image
"postgres:9.4" with the one port 5432/TCP, the four environment variables, and
one volume "pg-data" on empty-dir storage that the one volume mount names. -/
theorem created_deployment_is_fixed {σ : Type} (k : Kclient σ) (s : σ) (ns : String)
    (d0 : v1beta1.Deployment) (hget : (k.deploymentsGet s ns "postgres").1.1 = some d0)
    (habsent : d0.Name.length = 0) :
    ∃ obj c, (SimplePostgresDeployment k s ns).trace =
          [Call.deploymentsGet ns "postgres", Call.deploymentsCreate ns obj] ∧
      obj = SimplePostgresDeployment.deployment 1 ∧
      obj.Name = "postgres" ∧
      obj.Spec.Replicas = some 1 ∧
      obj.Spec.Template.Spec.Containers = [c] ∧
      c.Image = "postgres:9.4" ∧
      c.Ports.map (fun p => (p.ContainerPort, p.Protocol)) = [(5432, "TCP")] ∧
      c.Env.map (fun e => (e.Name, e.Value)) =
        [("POSTGRES_USER", "kong"), ("POSTGRES_PASSWORD", "kong"), ("POSTGRES_DB", "kong"),
          ("PGDATA", "/var/lib/postgresql/data/pgdata")] ∧
      obj.Spec.Template.Spec.Volumes =
        [{ Name := "pg-data", VolumeSource := { EmptyDir := some {} } }] ∧
      c.VolumeMounts.map (fun m => m.Name) =
        obj.Spec.Template.Spec.Volumes.map (fun v => v.Name) ∧
      c.VolumeMounts.length = 1 :=
  ⟨SimplePostgresDeployment.deployment 1, _,
    (SimplePostgresDeployment_absent k s ns d0 hget habsent).1,
    rfl, rfl, rfl, rfl, rfl, rfl, rfl, rfl, rfl, rfl⟩

/-- Witness of C9: the first run on the empty cluster, namespace "default". -/
theorem created_deployment_is_fixed_witness :
    ∃ obj c, (SimplePostgresDeployment storeClient {} "default").trace =
          [Call.deploymentsGet "default" "postgres", Call.deploymentsCreate "default" obj] ∧
      obj = SimplePostgresDeployment.deployment 1 ∧
      obj.Name = "postgres" ∧
      obj.Spec.Replicas = some 1 ∧
      obj.Spec.Template.Spec.Containers = [c] ∧
      c.Image = "postgres:9.4" ∧
      c.Ports.map (fun p => (p.ContainerPort, p.Protocol)) = [(5432, "TCP")] ∧
      c.Env.map (fun e => (e.Name, e.Value)) =
        [("POSTGRES_USER", "kong"), ("POSTGRES_PASSWORD", "kong"), ("POSTGRES_DB", "kong"),
          ("PGDATA", "/var/lib/postgresql/data/pgdata")] ∧
      obj.Spec.Template.Spec.Volumes =
        [{ Name := "pg-data", VolumeSource := { EmptyDir := some {} } }] ∧
      c.VolumeMounts.map (fun m => m.Name) =
        obj.Spec.Template.Spec.Volumes.map (fun v => v.Name) ∧
      c.VolumeMounts.length = 1 :=
  created_deployment_is_fixed storeClient {} "default" {} rfl rfl

/-- C10 (the endpoint routes to the workload).  For every service object `svc`
that `SimplePostgresService` hands to `Services.Create` and every deployment
object `d` that `SimplePostgresDeployment` hands to `Deployments.Create`: the
selector of `svc` equals the labels of the pod template of `d`, list for list
and key for key (both are app = postgres), so the selector selects the pods of
the template; and the one service port maps 5432 to target port 5432 over TCP,
the number and protocol of the one container port of `d`. -/
theorem service_selects_workload_pods {σ τ : Type} (k : Kclient σ) (s : σ) (ns nsd : String)
    (k2 : Kclient τ) (s2 : τ) (ns2 nss : String) (d : v1beta1.Deployment) (svc : v1.Service)
    (hd : Call.deploymentsCreate nsd d ∈ (SimplePostgresDeployment k s ns).trace)
    (hs : Call.servicesCreate nss svc ∈ (SimplePostgresService k2 s2 ns2).trace) :
    svc.Spec.Selector = d.Spec.Template.ObjectMeta.Labels ∧
      svc.Spec.Selector = [("app", "postgres")] ∧
      (∀ key, svc.Spec.Selector.lookup key = d.Spec.Template.ObjectMeta.Labels.lookup key) ∧
      selects svc.Spec.Selector d.Spec.Template.ObjectMeta.Labels = true ∧
      ∃ p c cp, svc.Spec.Ports = [p] ∧ d.Spec.Template.Spec.Containers = [c] ∧ c.Ports = [cp] ∧
        p.Port = 5432 ∧ p.TargetPort = Sum.inl 5432 ∧ p.Protocol = "TCP" ∧
        cp.ContainerPort = p.Port ∧ p.TargetPort = Sum.inl cp.ContainerPort ∧
        cp.Protocol = p.Protocol := by
  obtain ⟨_, rfl⟩ := created_deployment_eq k s ns nsd d hd
  obtain ⟨_, rfl⟩ := created_service_eq k2 s2 ns2 nss svc hs
  refine ⟨rfl, rfl, fun _ => rfl, by decide, _, _, _, rfl, rfl, rfl, rfl, rfl, rfl, rfl, rfl, rfl⟩

/-- Witness of C10: both routines run on the empty cluster. -/
theorem service_selects_workload_pods_witness :
    Call.deploymentsCreate "default" (SimplePostgresDeployment.deployment 1) ∈
        (SimplePostgresDeployment storeClient {} "default").trace ∧
      Call.servicesCreate "default" SimplePostgresService.clientSvc ∈
        (SimplePostgresService storeClient {} "default").trace ∧
      SimplePostgresService.clientSvc.Spec.Selector =
        (SimplePostgresDeployment.deployment 1).Spec.Template.ObjectMeta.Labels ∧
      selects SimplePostgresService.clientSvc.Spec.Selector
        (SimplePostgresDeployment.deployment 1).Spec.Template.ObjectMeta.Labels = true :=
  have hd : Call.deploymentsCreate "default" (SimplePostgresDeployment.deployment 1) ∈
      (SimplePostgresDeployment storeClient {} "default").trace := by decide
  have hs : Call.servicesCreate "default" SimplePostgresService.clientSvc ∈
      (SimplePostgresService storeClient {} "default").trace := by decide
  have h := service_selects_workload_pods storeClient {} "default" "default"
    storeClient {} "default" "default" _ _ hd hs
  ⟨hd, hs, h.1, h.2.2.2.1⟩

end pg
